import Mathlib

/-!
Verification development for the ad-analytics chatbot repository
(`database_tools.py` and `chatbot_tugas.py`).

The Python functions are shallowly embedded as executable Lean functions:
  - SQL values become the `Value` inductive; row dictionaries become
    insertion-ordered association lists (`Row`).
  - The sqlite3 storage engine is external to the repository, so the
    Query Gateway (`execute_sql_query`) is parameterised over an abstract
    engine `exec : σ → String → Except String (σ × ExecOut)` taking the
    committed database state and the SQL text to either an error message
    (modelling a raised `sqlite3.Error`) or a successor state plus the
    cursor's observable output (column names, fetched rows, rowcount).
  - The concrete schema, seed data and introspection functions of
    `database_tools.py` are embedded directly over a concrete state type.
  - The Markdown cleaner of `chatbot_tugas.py` is embedded as
    character-list scanners reproducing each regex substitution.
-/

namespace Chatbot

/-- SQL values as seen through the Python sqlite3 driver: NULL, INTEGER,
REAL (modelled as exact rationals) and TEXT. -/
inductive Value where
  | null : Value
  | int (i : Int) : Value
  | real (r : Rat) : Value
  | text (s : String) : Value
deriving DecidableEq

/-- A Python dict as produced by `execute_sql_query`: an insertion-ordered
association list from string keys to values. -/
abbrev Row := List (String × Value)

/-- Keys of a row dictionary, in insertion order (Python `dict.keys()`). -/
def dictKeys (d : Row) : List String := d.map Prod.fst

/-- Python dict assignment `d[k] = v`: overwrite in place if the key is
present, otherwise append at the end. -/
def dictInsert (d : Row) (k : String) (v : Value) : Row :=
  if (dictKeys d).contains k then
    d.map (fun p => if p.1 = k then (p.1, v) else p)
  else
    d ++ [(k, v)]

/-- The dict comprehension `{k: row[k] for k in row.keys()}` of
`execute_sql_query`: fold the column list, inserting each column's value. -/
def rowToDict (cols : List String) (get : String → Value) : Row :=
  cols.foldl (fun d k => dictInsert d k (get k)) []

/-- Name-based access `row[k]` on a `sqlite3.Row`: the value at the first
column whose name is `k` (NULL if absent, which does not occur in use). -/
def rowLookup (cols : List String) (vals : List Value) (k : String) : Value :=
  match cols.indexOf? k with
  | some i => vals.getD i Value.null
  | none => Value.null

/-- Python `\s`-style whitespace characters. -/
def isWs (c : Char) : Bool :=
  c = ' ' || c = '\t' || c = '\n' || c = '\r' || c = '\x0b' || c = '\x0c'

/-- Python `str.strip()` on a character list: drop leading and trailing
whitespace. -/
def trimChars (l : List Char) : List Char :=
  ((l.dropWhile isWs).reverse.dropWhile isWs).reverse

/-- The dispatch test of `execute_sql_query`:
`query.strip().upper().startswith("SELECT")`. -/
def isSelect (q : String) : Bool :=
  List.isPrefixOf "SELECT".data ((trimChars q.data).map Char.toUpper)

/-- The observable cursor output of a successfully executed statement:
the declared column names of the result set, the fetched rows, and
`cursor.rowcount` (the number of rows modified by a mutating statement;
the sqlite3 driver reports `-1` for statements that modify nothing). -/
structure ExecOut where
  cols : List String
  rows : List (List Value)
  rowcount : Int
deriving DecidableEq

/-- Embedding of `execute_sql_query` (database_tools.py, lines 150-173),
parameterised over the storage engine `exec`.  The first component of the
result is the committed database state after the call: the engine error
branch and the SELECT branch close the connection without committing, so
they return the input state; the mutating branch commits the successor
state. -/
def execute_sql_query {σ : Type} (exec : σ → String → Except String (σ × ExecOut))
    (db : σ) (query : String) : σ × List Row :=
  match exec db query with
  | Except.error e => (db, [[("error", Value.text e)]])
  | Except.ok (db', out) =>
    if isSelect query then
      (db, out.rows.map (fun vals => rowToDict out.cols (rowLookup out.cols vals)))
    else
      (db', [[("affected_rows", Value.int out.rowcount)]])

/-! ### Generic dictionary lemmas -/

theorem dictKeys_dictInsert (d : Row) (k : String) (v : Value) :
    dictKeys (dictInsert d k v) =
      if (dictKeys d).contains k then dictKeys d else dictKeys d ++ [k] := by
  unfold dictInsert dictKeys
  by_cases h : (d.map Prod.fst).contains k
  · simp only [if_pos h, List.map_map]
    apply List.map_congr_left
    intro p _
    by_cases hp : p.1 = k
    · simp [hp]
    · simp [hp]
  · simp [if_neg h]

theorem dictInsert_of_not_mem (d : Row) (k : String) (v : Value)
    (h : ¬ k ∈ dictKeys d) : dictInsert d k v = d ++ [(k, v)] := by
  unfold dictInsert
  rw [if_neg]
  simpa using h

theorem rowToDict_go_of_nodup (get : String → Value) :
    ∀ (cols : List String) (d : Row), cols.Nodup →
      (∀ k ∈ cols, ¬ k ∈ dictKeys d) →
      cols.foldl (fun d k => dictInsert d k (get k)) d =
        d ++ cols.map (fun k => (k, get k)) := by
  intro cols
  induction cols with
  | nil => intro d _ _; simp
  | cons k ks ih =>
    intro d hnd hdis
    have hk : ¬ k ∈ dictKeys d := hdis k (List.mem_cons_self k ks)
    have step : dictInsert d k (get k) = d ++ [(k, get k)] :=
      dictInsert_of_not_mem d k (get k) hk
    have hnd' : ks.Nodup := (List.nodup_cons.mp hnd).2
    have hknotks : ¬ k ∈ ks := (List.nodup_cons.mp hnd).1
    have hdis' : ∀ k' ∈ ks, ¬ k' ∈ dictKeys (d ++ [(k, get k)]) := by
      intro k' hk' hmem
      have : dictKeys (d ++ [(k, get k)]) = dictKeys d ++ [k] := by
        simp [dictKeys]
      rw [this] at hmem
      rcases List.mem_append.mp hmem with h1 | h2
      · exact hdis k' (List.mem_cons_of_mem k hk') h1
      · have : k' = k := by simpa using h2
        exact hknotks (this ▸ hk')
    calc (k :: ks).foldl (fun d k => dictInsert d k (get k)) d
        = ks.foldl (fun d k => dictInsert d k (get k)) (d ++ [(k, get k)]) := by
          simp [step]
      _ = (d ++ [(k, get k)]) ++ ks.map (fun k => (k, get k)) := ih _ hnd' hdis'
      _ = d ++ (k :: ks).map (fun k => (k, get k)) := by simp

theorem rowToDict_keys_of_nodup (cols : List String) (get : String → Value)
    (h : cols.Nodup) : dictKeys (rowToDict cols get) = cols := by
  unfold rowToDict
  rw [rowToDict_go_of_nodup get cols [] h (by intro k _ hk; simp [dictKeys] at hk)]
  simp only [List.nil_append, dictKeys, List.map_map]
  exact List.map_id cols

theorem mem_dictKeys_rowToDict (cols : List String) (get : String → Value) :
    ∀ x, x ∈ dictKeys (rowToDict cols get) ↔ x ∈ cols := by
  have main : ∀ (cols : List String) (d : Row) (x : String),
      x ∈ dictKeys (cols.foldl (fun d k => dictInsert d k (get k)) d) ↔
        x ∈ dictKeys d ∨ x ∈ cols := by
    intro cols
    induction cols with
    | nil => intro d x; simp
    | cons k ks ih =>
      intro d x
      have hstep : x ∈ dictKeys (dictInsert d k (get k)) ↔ x ∈ dictKeys d ∨ x = k := by
        rw [dictKeys_dictInsert]
        by_cases h : (dictKeys d).contains k
        · simp only [h, if_true]
          constructor
          · intro hx; exact Or.inl hx
          · intro hx
            rcases hx with hx | hx
            · exact hx
            · exact hx ▸ (show k ∈ dictKeys d by simpa using h)
        · simp only [h, if_false]
          simp [List.mem_append, or_comm, eq_comm]
      constructor
      · intro hx
        rcases (ih (dictInsert d k (get k)) x).mp hx with hx | hx
        · rcases hstep.mp hx with hx | hx
          · exact Or.inl hx
          · exact Or.inr (by simp [hx])
        · exact Or.inr (List.mem_cons_of_mem _ hx)
      · intro hx
        apply (ih (dictInsert d k (get k)) x).mpr
        rcases hx with hx | hx
        · exact Or.inl (hstep.mpr (Or.inl hx))
        · rcases List.mem_cons.mp hx with hx | hx
          · exact Or.inl (hstep.mpr (Or.inr hx))
          · exact Or.inr hx
  intro x
  unfold rowToDict
  rw [main cols [] x]
  simp [dictKeys]

/-! ### Claim C1 -/

/-- Claim C1: whenever executing the SQL text hits a storage-engine error,
`execute_sql_query` returns (without raising) a one-element result list whose
single mapping binds the key "error" to the error message, and the committed
state is untouched. -/
theorem execute_sql_query_error_soft_fail {σ : Type}
    (exec : σ → String → Except String (σ × ExecOut)) (db : σ) (query : String)
    (e : String) (h : exec db query = Except.error e) :
    execute_sql_query exec db query = (db, [[("error", Value.text e)]]) ∧
      (execute_sql_query exec db query).2.length = 1 ∧
      ∀ r ∈ (execute_sql_query exec db query).2, dictKeys r = ["error"] := by
  unfold execute_sql_query
  rw [h]
  refine ⟨rfl, rfl, ?_⟩
  intro r hr
  simp at hr
  simp [hr, dictKeys]

/-- A concrete storage engine over a toy state used to instantiate the
gateway theorems: one recognised SELECT, one recognised DELETE, and a
syntax error for everything else. -/
def toyExec (db : Nat) (q : String) : Except String (Nat × ExecOut) :=
  if q = "SELECT name FROM campaigns" then
    Except.ok (db, ⟨["name"],
      [[Value.text "Spring Sale 2024"], [Value.text "Brand Awareness Q2"]], -1⟩)
  else if q = "DELETE FROM ads" then
    Except.ok (0, ⟨[], [], 5⟩)
  else
    Except.error "near \"SELEKT\": syntax error"

/-- Witness for C1 at the spec's own example `SELEKT * FROM campaigns`. -/
theorem execute_sql_query_error_soft_fail_witness :
    execute_sql_query toyExec 7 "SELEKT * FROM campaigns" =
      (7, [[("error", Value.text "near \"SELEKT\": syntax error")]]) :=
  (execute_sql_query_error_soft_fail toyExec 7 "SELEKT * FROM campaigns"
    "near \"SELEKT\": syntax error" rfl).1

/-! ### Claim C2 -/

/-- Claim C2: a non-SELECT statement that the engine executes successfully is
committed (the returned committed state is the engine's successor state) and
yields exactly `[{"affected_rows": rowcount}]`, where `rowcount` is the
engine-reported number of rows changed by the statement. -/
theorem execute_sql_query_non_select_affected_rows {σ : Type}
    (exec : σ → String → Except String (σ × ExecOut)) (db db' : σ)
    (query : String) (out : ExecOut)
    (h : exec db query = Except.ok (db', out)) (hsel : isSelect query = false) :
    execute_sql_query exec db query =
      (db', [[("affected_rows", Value.int out.rowcount)]]) := by
  unfold execute_sql_query
  rw [h]
  simp [hsel]

/-- Witness for C2: the toy engine's DELETE changes 5 rows and commits. -/
theorem execute_sql_query_non_select_affected_rows_witness :
    isSelect "DELETE FROM ads" = false ∧
      execute_sql_query toyExec 7 "DELETE FROM ads" =
        (0, [[("affected_rows", Value.int 5)]]) :=
  ⟨by decide,
    execute_sql_query_non_select_affected_rows toyExec 7 0 "DELETE FROM ads"
      ⟨[], [], 5⟩ rfl (by decide)⟩

/-! ### Claim C3 -/

/-- Claim C3: a successfully executed SELECT yields one dictionary per
fetched row (result length = number of matching rows); every dictionary's
key set equals the set of the query's declared columns, and when the
declared column names are distinct the key list is exactly the column list
in declared order. -/
theorem execute_sql_query_select_rows {σ : Type}
    (exec : σ → String → Except String (σ × ExecOut)) (db db' : σ)
    (query : String) (out : ExecOut)
    (h : exec db query = Except.ok (db', out)) (hsel : isSelect query = true) :
    (execute_sql_query exec db query).2.length = out.rows.length ∧
      (∀ r ∈ (execute_sql_query exec db query).2,
        ∀ x, x ∈ dictKeys r ↔ x ∈ out.cols) ∧
      (out.cols.Nodup → ∀ r ∈ (execute_sql_query exec db query).2,
        dictKeys r = out.cols) := by
  unfold execute_sql_query
  rw [h]
  simp only [hsel, if_true]
  refine ⟨by simp, ?_, ?_⟩
  · intro r hr x
    simp only [List.mem_map] at hr
    obtain ⟨vals, _, hv⟩ := hr
    rw [← hv]
    exact mem_dictKeys_rowToDict out.cols (rowLookup out.cols vals) x
  · intro hnd r hr
    simp only [List.mem_map] at hr
    obtain ⟨vals, _, hv⟩ := hr
    rw [← hv]
    exact rowToDict_keys_of_nodup out.cols (rowLookup out.cols vals) hnd

/-- Witness for C3 at the toy engine's two-row SELECT. -/
theorem execute_sql_query_select_rows_witness :
    (execute_sql_query toyExec 7 "SELECT name FROM campaigns").2.length = 2 ∧
      ∀ r ∈ (execute_sql_query toyExec 7 "SELECT name FROM campaigns").2,
        dictKeys r = ["name"] := by
  have h := execute_sql_query_select_rows toyExec 7 7 "SELECT name FROM campaigns"
    ⟨["name"], [[Value.text "Spring Sale 2024"], [Value.text "Brand Awareness Q2"]], -1⟩
    rfl (by decide)
  exact ⟨h.1, h.2.2 (by decide)⟩

/-! ### Claim C10 -/

/-- Claim C10: when the engine reports an error, no commit happens, so the
committed database state returned by `execute_sql_query` is exactly the
state before the call. -/
theorem execute_sql_query_error_preserves_state {σ : Type}
    (exec : σ → String → Except String (σ × ExecOut)) (db : σ) (query : String)
    (e : String) (h : exec db query = Except.error e) :
    (execute_sql_query exec db query).1 = db := by
  unfold execute_sql_query
  rw [h]

/-- Witness for C10: the toy engine errors on malformed SQL and the
committed state 7 is returned unchanged. -/
theorem execute_sql_query_error_preserves_state_witness :
    (execute_sql_query toyExec 7 "DROWP TABLE ads").1 = 7 :=
  execute_sql_query_error_preserves_state toyExec 7 "DROWP TABLE ads"
    "near \"SELEKT\": syntax error" rfl

/-! ### Schema Store: concrete embedding of `init_database` and the
introspection operations (database_tools.py, lines 9-148 and 175-253).

The five tables are embedded as lists of typed records; a column declared
NOT NULL becomes a plain field, a nullable column an `Option` field.
`INTEGER PRIMARY KEY` rowids omitted by the seed INSERTs are assigned as
max-existing-id + 1, matching the engine's rowid allocation. -/

structure Campaign where
  campaign_id : Int
  name : String
  objective : Option String
  status : Option String
  start_date : Option String
  end_date : Option String
deriving DecidableEq

structure AdSet where
  ad_set_id : Int
  campaign_id : Option Int
  name : String
  daily_budget : Option Rat
  bid_amount : Option Rat
  targeting : Option String
  start_date : Option String
  end_date : Option String
  status : Option String
deriving DecidableEq

structure Ad where
  ad_id : Int
  ad_set_id : Option Int
  name : String
  status : Option String
  creative_text : Option String
  creative_media : Option String
  tracking_url : Option String
  created_time : Option String
deriving DecidableEq

structure AdMetric where
  metric_id : Int
  ad_id : Option Int
  date : String
  impressions : Int
  clicks : Int
  spend : Rat
  conversions : Int
  ctr : Option Rat
  cpc : Option Rat
  cpm : Option Rat
deriving DecidableEq

structure Audience where
  audience_id : Int
  name : String
  type : Option String
  size : Option Int
  description : Option String
deriving DecidableEq

structure MetaAdsDB where
  campaigns : List Campaign
  ad_sets : List AdSet
  ads : List Ad
  ad_metrics : List AdMetric
  audiences : List Audience
deriving DecidableEq

def emptyMetaAdsDB : MetaAdsDB := ⟨[], [], [], [], []⟩

/-- Largest primary-key value already present (0 on an empty table), so
that an omitted `INTEGER PRIMARY KEY` gets `maxId + 1`. -/
def maxId (l : List Int) : Int := l.foldl max 0

def seedCampaigns (b : Int) : List Campaign :=
  [⟨b + 1, "Spring Sale 2024", some "CONVERSIONS", some "ACTIVE",
      some "2024-03-01", some "2024-04-30"⟩,
   ⟨b + 2, "Brand Awareness Q2", some "BRAND_AWARENESS", some "PAUSED",
      some "2024-04-01", some "2024-06-30"⟩,
   ⟨b + 3, "Retargeting - Site Visitors", some "CONVERSIONS", some "ACTIVE",
      some "2024-02-15", some "2024-12-31"⟩]

def seedAdSets (b : Int) : List AdSet :=
  [⟨b + 1, some 1, "Spring - Women 25-34", some 50.0, some 1.2,
      some "\x7b\"age\":[25,34],\"genders\":[1],\"interests\":[\"fashion\",\"sale\"]\x7d",
      some "2024-03-01", some "2024-04-30", some "ACTIVE"⟩,
   ⟨b + 2, some 1, "Spring - Men 25-44", some 40.0, some 1.0,
      some "\x7b\"age\":[25,44],\"genders\":[2],\"interests\":[\"technology\",\"gadgets\"]\x7d",
      some "2024-03-01", some "2024-04-30", some "ACTIVE"⟩,
   ⟨b + 3, some 2, "Awareness - Broad", some 100.0, none,
      some "\x7b\"locations\":[\"US\",\"CA\"],\"broad\":true\x7d",
      some "2024-04-01", some "2024-06-30", some "PAUSED"⟩,
   ⟨b + 4, some 3, "Retargeting - 30d Visitors", some 30.0, some 0.8,
      some "\x7b\"retargeting_window\":30\x7d",
      some "2024-02-15", some "2024-12-31", some "ACTIVE"⟩]

def seedAds (b : Int) : List Ad :=
  [⟨b + 1, some 1, "Spring - Carousel 1", some "ACTIVE",
      some "New Spring collection — up to 50% off!",
      some "https://cdn.example.com/creative1.jpg",
      some "https://shop.example.com/?utm=ad1", some "2024-03-01T08:00:00"⟩,
   ⟨b + 2, some 1, "Spring - Video Promo", some "ACTIVE",
      some "Watch the new lineup",
      some "https://cdn.example.com/video1.mp4",
      some "https://shop.example.com/?utm=ad2", some "2024-03-02T10:30:00"⟩,
   ⟨b + 3, some 2, "Tech - Single Image", some "ACTIVE",
      some "Latest gadgets at great prices",
      some "https://cdn.example.com/creative2.jpg",
      some "https://shop.example.com/?utm=ad3", some "2024-03-05T12:00:00"⟩,
   ⟨b + 4, some 3, "Brand - Awareness Banner", some "PAUSED",
      some "Discover our brand",
      some "https://cdn.example.com/banner1.jpg",
      some "https://shop.example.com/?utm=ad4", some "2024-04-01T09:00:00"⟩,
   ⟨b + 5, some 4, "Retarget - Dynamic", some "ACTIVE",
      some "We miss you — come back for 10% off",
      some "https://cdn.example.com/dyn1.jpg",
      some "https://shop.example.com/?utm=ad5", some "2024-02-20T14:20:00"⟩]

def seedAdMetrics (b : Int) : List AdMetric :=
  [⟨b + 1, some 1, "2024-03-01", 12000, 300, 150.25, 12,
      some 0.025, some 0.5008, some 12.52⟩,
   ⟨b + 2, some 1, "2024-03-02", 10000, 250, 130.0, 10,
      some 0.025, some 0.52, some 13.0⟩,
   ⟨b + 3, some 2, "2024-03-02", 8000, 200, 80.0, 8,
      some 0.025, some 0.4, some 10.0⟩,
   ⟨b + 4, some 3, "2024-03-05", 6000, 90, 45.0, 2,
      some 0.015, some 0.5, some 7.5⟩,
   ⟨b + 5, some 4, "2024-04-01", 50000, 400, 300.0, 0,
      some 0.008, some 0.75, some 6.0⟩,
   ⟨b + 6, some 5, "2024-03-10", 4000, 120, 60.0, 6,
      some 0.03, some 0.5, some 15.0⟩]

def seedAudiences (b : Int) : List Audience :=
  [⟨b + 1, "Women 25-34 - Interest: Fashion", some "CUSTOM", some 120000,
      some "Lookalike & interest based"⟩,
   ⟨b + 2, "Site Visitors 30d", some "RETARGETING", some 45000,
      some "People who visited site in last 30 days"⟩,
   ⟨b + 3, "USA - Broad", some "SAVED", some 5000000,
      some "Saved audience for broad reach"⟩]

/-- The seed-insertion block of `init_database` (lines 88-143): append the
fixed sample rows to every table, rowids continuing after the existing
maximum. -/
def seedInto (db : MetaAdsDB) : MetaAdsDB :=
  { campaigns := db.campaigns ++ seedCampaigns (maxId (db.campaigns.map Campaign.campaign_id)),
    ad_sets := db.ad_sets ++ seedAdSets (maxId (db.ad_sets.map AdSet.ad_set_id)),
    ads := db.ads ++ seedAds (maxId (db.ads.map Ad.ad_id)),
    ad_metrics := db.ad_metrics ++ seedAdMetrics (maxId (db.ad_metrics.map AdMetric.metric_id)),
    audiences := db.audiences ++ seedAudiences (maxId (db.audiences.map Audience.audience_id)) }

/-- The backing file `meta_ads.db` once it exists: either a bare database
with no tables yet (as left behind by a plain connect) or one carrying the
five tables. `Option DBFile` adds the missing-file state. -/
inductive DBFile where
  | noTables : DBFile
  | withTables (db : MetaAdsDB) : DBFile
deriving DecidableEq

/-- `sqlite3.connect(DB_PATH)`: opening a missing file creates a bare
database with no tables. -/
def connectFile : Option DBFile → DBFile
  | none => DBFile.noTables
  | some f => f

/-- The five `CREATE TABLE IF NOT EXISTS` statements: materialise the
(empty) tables if they are absent, otherwise leave the data alone. -/
def ensureTables : DBFile → MetaAdsDB
  | DBFile.noTables => emptyMetaAdsDB
  | DBFile.withTables db => db

/-- Embedding of `init_database` (lines 9-148): connect (creating the file
if missing), create the five tables if absent, and insert the seed rows
only when `SELECT COUNT(*) FROM campaigns` is 0; then commit.  The
returned `DBFile` is the state of the backing file after the call. -/
def init_database (f : Option DBFile) : DBFile :=
  if (ensureTables (connectFile f)).campaigns = [] then
    DBFile.withTables (seedInto (ensureTables (connectFile f)))
  else
    DBFile.withTables (ensureTables (connectFile f))

/-- One row of `PRAGMA table_info` as reported by `get_table_schema`:
column name, declared type, not-null flag, default value (`dflt` models
the dict key "default") and primary-key flag. -/
structure ColumnInfo where
  name : String
  type : String
  notnull : Bool
  dflt : Option String
  pk : Bool
deriving DecidableEq

def campaignsCols : List ColumnInfo :=
  [⟨"campaign_id", "INTEGER", false, none, true⟩,
   ⟨"name", "TEXT", true, none, false⟩,
   ⟨"objective", "TEXT", false, none, false⟩,
   ⟨"status", "TEXT", false, none, false⟩,
   ⟨"start_date", "TEXT", false, none, false⟩,
   ⟨"end_date", "TEXT", false, none, false⟩]

def adSetsCols : List ColumnInfo :=
  [⟨"ad_set_id", "INTEGER", false, none, true⟩,
   ⟨"campaign_id", "INTEGER", false, none, false⟩,
   ⟨"name", "TEXT", true, none, false⟩,
   ⟨"daily_budget", "REAL", false, none, false⟩,
   ⟨"bid_amount", "REAL", false, none, false⟩,
   ⟨"targeting", "TEXT", false, none, false⟩,
   ⟨"start_date", "TEXT", false, none, false⟩,
   ⟨"end_date", "TEXT", false, none, false⟩,
   ⟨"status", "TEXT", false, none, false⟩]

def adsCols : List ColumnInfo :=
  [⟨"ad_id", "INTEGER", false, none, true⟩,
   ⟨"ad_set_id", "INTEGER", false, none, false⟩,
   ⟨"name", "TEXT", true, none, false⟩,
   ⟨"status", "TEXT", false, none, false⟩,
   ⟨"creative_text", "TEXT", false, none, false⟩,
   ⟨"creative_media", "TEXT", false, none, false⟩,
   ⟨"tracking_url", "TEXT", false, none, false⟩,
   ⟨"created_time", "TEXT", false, none, false⟩]

def adMetricsCols : List ColumnInfo :=
  [⟨"metric_id", "INTEGER", false, none, true⟩,
   ⟨"ad_id", "INTEGER", false, none, false⟩,
   ⟨"date", "TEXT", true, none, false⟩,
   ⟨"impressions", "INTEGER", false, some "0", false⟩,
   ⟨"clicks", "INTEGER", false, some "0", false⟩,
   ⟨"spend", "REAL", false, some "0.0", false⟩,
   ⟨"conversions", "INTEGER", false, some "0", false⟩,
   ⟨"ctr", "REAL", false, none, false⟩,
   ⟨"cpc", "REAL", false, none, false⟩,
   ⟨"cpm", "REAL", false, none, false⟩]

def audiencesCols : List ColumnInfo :=
  [⟨"audience_id", "INTEGER", false, none, true⟩,
   ⟨"name", "TEXT", true, none, false⟩,
   ⟨"type", "TEXT", false, none, false⟩,
   ⟨"size", "INTEGER", false, none, false⟩,
   ⟨"description", "TEXT", false, none, false⟩]

/-- The table-name-to-columns mapping reported for a database holding the
five tables, in `sqlite_master` (creation) order.  No `sqlite_` internal
table is ever created by this schema, so none has to be skipped. -/
def fullSchema : List (String × List ColumnInfo) :=
  [("campaigns", campaignsCols),
   ("ad_sets", adSetsCols),
   ("ads", adsCols),
   ("ad_metrics", adMetricsCols),
   ("audiences", audiencesCols)]

/-- Success/error shape of `get_table_schema`: a table-keyed mapping, or
the single-mapping dict with key "error". -/
inductive SchemaResult where
  | ok (tables : List (String × List ColumnInfo)) : SchemaResult
  | err (msg : String) : SchemaResult
deriving DecidableEq

/-- Embedding of `get_table_schema` (lines 175-211).  It only connects —
it never calls `init_database` — so on a missing or bare file it reports
an empty mapping.  The first component is the backing-file state after the
call (the connect created the file if it was missing). -/
def get_table_schema (f : Option DBFile) : DBFile × SchemaResult :=
  match connectFile f with
  | DBFile.noTables => (DBFile.noTables, SchemaResult.ok [])
  | DBFile.withTables db => (DBFile.withTables db, SchemaResult.ok fullSchema)

/-- The keys Python iterates over in `get_database_info`: the table names
on success, and the lone "error" key of the error dict otherwise. -/
def tableNamesOf : SchemaResult → List String
  | SchemaResult.ok ts => ts.map Prod.fst
  | SchemaResult.err _ => ["error"]

def selQuery (t : String) : String := "SELECT * FROM " ++ t ++ " LIMIT 3"

/-- The sample-collection loop of `get_database_info` (lines 242-248):
for each table name, run `SELECT * FROM <t> LIMIT 3` through the Query
Gateway, threading the backing-file state.  The gateway never raises, so
the `except` fallback that would store `[]` is never taken. -/
def sampleLoop (exec : DBFile → String → Except String (DBFile × ExecOut)) :
    DBFile → List String → DBFile × List (String × List Row)
  | db, [] => (db, [])
  | db, t :: ts =>
    let r := execute_sql_query exec db (selQuery t)
    let rest := sampleLoop exec r.1 ts
    (rest.1, (t, r.2) :: rest.2)

/-- `if not os.path.exists(DB_PATH): init_database()` — the lazy
initialisation guard shared by `text_to_sql` and `get_database_info`. -/
def ensureFile : Option DBFile → DBFile
  | none => init_database none
  | some d => d

/-- The `{schema: ..., sample_data: ...}` result of `get_database_info`. -/
structure DBInfo where
  schemaPart : SchemaResult
  sample_data : List (String × List Row)
deriving DecidableEq

/-- Embedding of `get_database_info` (lines 233-253): initialise the store
when the file is missing, read the schema, then collect per-table samples
through the Query Gateway. -/
def get_database_info (exec : DBFile → String → Except String (DBFile × ExecOut))
    (f : Option DBFile) : DBFile × DBInfo :=
  let s := get_table_schema (some (ensureFile f))
  let r := sampleLoop exec s.1 (tableNamesOf s.2)
  (r.1, ⟨s.2, r.2⟩)

/-- Embedding of `text_to_sql` (lines 214-231): initialise the store when
the file is missing, then run the query through the Query Gateway and pair
it with the original SQL text.  (The gateway never raises, so the
surrounding try/except of the Python code is dead.) -/
def text_to_sql (exec : DBFile → String → Except String (DBFile × ExecOut))
    (f : Option DBFile) (sql_query : String) : DBFile × (String × List Row) :=
  let r := execute_sql_query exec (ensureFile f) sql_query
  (r.1, (sql_query, r.2))

/-! ### Claim C4 -/

/-- Claim C4: on a store whose campaigns table is empty, `init_database`
seeds exactly 3 campaigns (and 4 ad sets, 5 ads, 6 metric rows, 3
audiences), and a second consecutive `init_database` call returns the
store completely unchanged — in particular every row count, campaigns
included, stays put — because seeding is guarded by the campaigns table
being empty. -/
theorem init_database_seed_idempotent (f : Option DBFile)
    (h : (ensureTables (connectFile f)).campaigns = []) :
    (ensureTables (init_database f)).campaigns.length = 3 ∧
      (ensureTables (init_database f)).ad_sets.length =
        (ensureTables (connectFile f)).ad_sets.length + 4 ∧
      (ensureTables (init_database f)).ads.length =
        (ensureTables (connectFile f)).ads.length + 5 ∧
      (ensureTables (init_database f)).ad_metrics.length =
        (ensureTables (connectFile f)).ad_metrics.length + 6 ∧
      (ensureTables (init_database f)).audiences.length =
        (ensureTables (connectFile f)).audiences.length + 3 ∧
      init_database (some (init_database f)) = init_database f := by
  have hfirst : init_database f =
      DBFile.withTables (seedInto (ensureTables (connectFile f))) := by
    unfold init_database
    rw [if_pos h]
  have hcamp : (seedInto (ensureTables (connectFile f))).campaigns =
      seedCampaigns (maxId ((ensureTables (connectFile f)).campaigns.map
        Campaign.campaign_id)) := by
    simp [seedInto, h]
  refine ⟨?_, ?_, ?_, ?_, ?_, ?_⟩
  · rw [hfirst]
    show (seedInto (ensureTables (connectFile f))).campaigns.length = 3
    rw [hcamp]
    simp [seedCampaigns]
  · rw [hfirst]
    simp [ensureTables, seedInto, seedAdSets]
  · rw [hfirst]
    simp [ensureTables, seedInto, seedAds]
  · rw [hfirst]
    simp [ensureTables, seedInto, seedAdMetrics]
  · rw [hfirst]
    simp [ensureTables, seedInto, seedAudiences]
  · rw [hfirst]
    have hne : (ensureTables (connectFile (some (DBFile.withTables
        (seedInto (ensureTables (connectFile f))))))).campaigns ≠ [] := by
      show (seedInto (ensureTables (connectFile f))).campaigns ≠ []
      rw [hcamp]
      simp [seedCampaigns]
    show init_database (some (DBFile.withTables (seedInto (ensureTables (connectFile f))))) = _
    unfold init_database
    rw [if_neg hne]
    rfl

/-- Witness for C4 at the missing-file store: initialisation seeds the
counts 3/4/5/6/3 and a second call is the identity. -/
theorem init_database_seed_idempotent_witness :
    (ensureTables (connectFile none)).campaigns = [] ∧
      (ensureTables (init_database none)).campaigns.length = 3 ∧
      init_database (some (init_database none)) = init_database none :=
  ⟨rfl, (init_database_seed_idempotent none rfl).1,
    (init_database_seed_idempotent none rfl).2.2.2.2.2⟩

/-! ### Claim C8 -/

/-- Claim C8: on a freshly initialised store, `get_table_schema` reports
exactly the five tables campaigns, ad_sets, ads, ad_metrics, audiences (in
creation order, no internal tables), each with its declared ordered column
list carrying name, declared type, not-null flag, default value and
primary-key flag as in the CREATE TABLE statements. -/
theorem get_table_schema_fresh :
    (get_table_schema (some (init_database none))).2 =
        SchemaResult.ok fullSchema ∧
      fullSchema.map Prod.fst =
        ["campaigns", "ad_sets", "ads", "ad_metrics", "audiences"] ∧
      fullSchema = [
        ("campaigns",
          [⟨"campaign_id", "INTEGER", false, none, true⟩,
           ⟨"name", "TEXT", true, none, false⟩,
           ⟨"objective", "TEXT", false, none, false⟩,
           ⟨"status", "TEXT", false, none, false⟩,
           ⟨"start_date", "TEXT", false, none, false⟩,
           ⟨"end_date", "TEXT", false, none, false⟩]),
        ("ad_sets",
          [⟨"ad_set_id", "INTEGER", false, none, true⟩,
           ⟨"campaign_id", "INTEGER", false, none, false⟩,
           ⟨"name", "TEXT", true, none, false⟩,
           ⟨"daily_budget", "REAL", false, none, false⟩,
           ⟨"bid_amount", "REAL", false, none, false⟩,
           ⟨"targeting", "TEXT", false, none, false⟩,
           ⟨"start_date", "TEXT", false, none, false⟩,
           ⟨"end_date", "TEXT", false, none, false⟩,
           ⟨"status", "TEXT", false, none, false⟩]),
        ("ads",
          [⟨"ad_id", "INTEGER", false, none, true⟩,
           ⟨"ad_set_id", "INTEGER", false, none, false⟩,
           ⟨"name", "TEXT", true, none, false⟩,
           ⟨"status", "TEXT", false, none, false⟩,
           ⟨"creative_text", "TEXT", false, none, false⟩,
           ⟨"creative_media", "TEXT", false, none, false⟩,
           ⟨"tracking_url", "TEXT", false, none, false⟩,
           ⟨"created_time", "TEXT", false, none, false⟩]),
        ("ad_metrics",
          [⟨"metric_id", "INTEGER", false, none, true⟩,
           ⟨"ad_id", "INTEGER", false, none, false⟩,
           ⟨"date", "TEXT", true, none, false⟩,
           ⟨"impressions", "INTEGER", false, some "0", false⟩,
           ⟨"clicks", "INTEGER", false, some "0", false⟩,
           ⟨"spend", "REAL", false, some "0.0", false⟩,
           ⟨"conversions", "INTEGER", false, some "0", false⟩,
           ⟨"ctr", "REAL", false, none, false⟩,
           ⟨"cpc", "REAL", false, none, false⟩,
           ⟨"cpm", "REAL", false, none, false⟩]),
        ("audiences",
          [⟨"audience_id", "INTEGER", false, none, true⟩,
           ⟨"name", "TEXT", true, none, false⟩,
           ⟨"type", "TEXT", false, none, false⟩,
           ⟨"size", "INTEGER", false, none, false⟩,
           ⟨"description", "TEXT", false, none, false⟩])] := by
  refine ⟨?_, rfl, rfl⟩
  rfl

/-! ### State preservation of the gateway on SELECT text -/

theorem execute_sql_query_select_state {σ : Type}
    (exec : σ → String → Except String (σ × ExecOut)) (db : σ) (q : String)
    (h : isSelect q = true) : (execute_sql_query exec db q).1 = db := by
  unfold execute_sql_query
  cases hx : exec db q with
  | error e => rfl
  | ok p =>
    cases p with
    | mk db' out => simp [h]

theorem sampleLoop_select_state
    (exec : DBFile → String → Except String (DBFile × ExecOut)) (db : DBFile)
    (ts : List String) (h : ∀ t ∈ ts, isSelect (selQuery t) = true) :
    sampleLoop exec db ts =
      (db, ts.map (fun t => (t, (execute_sql_query exec db (selQuery t)).2))) := by
  induction ts with
  | nil => rfl
  | cons t ts ih =>
    have ht : isSelect (selQuery t) = true := h t (List.mem_cons_self t ts)
    have hstate := execute_sql_query_select_state exec db (selQuery t) ht
    show ((sampleLoop exec (execute_sql_query exec db (selQuery t)).1 ts).1,
        (t, (execute_sql_query exec db (selQuery t)).2) ::
          (sampleLoop exec (execute_sql_query exec db (selQuery t)).1 ts).2) = _
    rw [hstate, ih (fun t' ht' => h t' (List.mem_cons_of_mem t ht'))]
    simp

/-- The five sample queries issued over an initialised store are SELECTs. -/
theorem fullSchema_queries_select :
    ∀ t ∈ fullSchema.map Prod.fst, isSelect (selQuery t) = true := by decide

/-! ### Claim C5 -/

/-- Claim C5 (amended): for every table name in the schema mapping,
`get_database_info` stores as that table's sample rows exactly the Query
Gateway's result for `SELECT * FROM <t> LIMIT 3` — which on a
storage-engine error is the one-element `{"error": msg}` list produced by
the gateway, never the empty list (the Python `except` fallback that would
store `[]` is unreachable because the gateway catches engine errors
itself). -/
theorem get_database_info_samples_gateway
    (exec : DBFile → String → Except String (DBFile × ExecOut))
    (f : Option DBFile) :
    (get_database_info exec f).2.schemaPart =
        (get_table_schema (some (ensureFile f))).2 ∧
      (get_database_info exec f).2.sample_data =
        (tableNamesOf (get_table_schema (some (ensureFile f))).2).map
          (fun t => (t, (execute_sql_query exec (ensureFile f) (selQuery t)).2)) := by
  refine ⟨rfl, ?_⟩
  unfold get_database_info
  cases hf : ensureFile f with
  | noTables => rfl
  | withTables db =>
    show (sampleLoop exec (DBFile.withTables db) (fullSchema.map Prod.fst)).2 =
      (fullSchema.map Prod.fst).map
        (fun t => (t, (execute_sql_query exec (DBFile.withTables db) (selQuery t)).2))
    rw [sampleLoop_select_state exec (DBFile.withTables db) (fullSchema.map Prod.fst)
      fullSchema_queries_select]

/-- An engine on which every statement fails with a storage error, as a
locked or corrupted database file produces. -/
def badExec : DBFile → String → Except String (DBFile × ExecOut) :=
  fun _ _ => Except.error "disk I/O error"

/-- Counterexample to claim C5 as stated: here the per-table fetch for
"campaigns" (a table present in the schema result) fails with a storage
error, yet the stored sample rows are the one-element error mapping, not
the empty sequence the claim promises. -/
theorem get_database_info_error_sample_not_empty :
    badExec (init_database none) (selQuery "campaigns") =
        Except.error "disk I/O error" ∧
      List.lookup "campaigns" (get_database_info badExec none).2.sample_data =
        some [[("error", Value.text "disk I/O error")]] ∧
      some [[(("error" : String), Value.text "disk I/O error")]] ≠
        some ([] : List Row) := by
  refine ⟨rfl, ?_, by decide⟩
  rfl

/-! ### Claim C9 -/

/-- Counterexample to claim C9 as stated: `get_table_schema`
(describeSchema) invoked with the backing file missing does not trigger
Schema Store initialisation — it leaves behind a bare database with no
tables and reports an empty mapping, unlike the initialised store. -/
theorem get_table_schema_missing_no_init :
    get_table_schema none = (DBFile.noTables, SchemaResult.ok []) ∧
      DBFile.noTables ≠ init_database none ∧
      SchemaResult.ok [] ≠ SchemaResult.ok fullSchema := by
  refine ⟨rfl, ?_, by decide⟩
  intro h
  rw [show init_database none = DBFile.withTables (seedInto emptyMetaAdsDB) from rfl] at h
  exact DBFile.noConfusion h

/-- Claim C9 (amended): only `get_database_info` (describeWithSamples)
lazily initialises the Schema Store on a missing backing file — it leaves
the file in the freshly initialised state and reports the five-table
schema — while `get_table_schema` (describeSchema) merely creates a bare
file and reports an empty mapping. -/
theorem get_database_info_lazy_init
    (exec : DBFile → String → Except String (DBFile × ExecOut)) :
    (get_database_info exec none).1 = init_database none ∧
      (get_database_info exec none).2.schemaPart = SchemaResult.ok fullSchema ∧
      get_table_schema none = (DBFile.noTables, SchemaResult.ok []) := by
  refine ⟨?_, rfl, rfl⟩
  show (sampleLoop exec (init_database none) (fullSchema.map Prod.fst)).1 =
    init_database none
  rw [sampleLoop_select_state exec (init_database none) (fullSchema.map Prod.fst)
    fullSchema_queries_select]

/-! ### Text Normalizer: embedding of `clean_markdown`
(chatbot_tugas.py, lines 13-39).

Each `re.sub` of the fixed pipeline is reproduced as a character-list
scanner with the regex's leftmost/greedy/lazy behaviour; the scanners use
a fuel argument equal to the input length (every step consumes at least
one character, so the fuel never runs out on the initial call). -/

def btick : Char := Char.ofNat 96

/-- Python regex `\w` (ASCII range, which is all the inputs exercise). -/
def isWordChar (c : Char) : Bool := c.isAlphanum || c = '_'

/-- Split a character list at the first occurrence of `target`:
`some (before, after)` excludes the separator itself. -/
def splitAtChar (target : Char) : List Char → Option (List Char × List Char)
  | [] => none
  | c :: cs =>
    if c = target then some ([], cs)
    else (splitAtChar target cs).map (fun p => (c :: p.1, p.2))

/-- Split at the first occurrence of three consecutive backticks. -/
def fenceSplit : List Char → Option (List Char × List Char)
  | [] => none
  | c :: cs =>
    if c = btick then
      match cs with
      | c2 :: c3 :: rest =>
        if c2 = btick ∧ c3 = btick then some ([], rest)
        else (fenceSplit cs).map (fun p => (c :: p.1, p.2))
      | _ => (fenceSplit cs).map (fun p => (c :: p.1, p.2))
    else (fenceSplit cs).map (fun p => (c :: p.1, p.2))

/-- The optional language tag `(?:\w*\n)?` after an opening fence:
consume a word run followed by a newline, or nothing. -/
def stripLangTag (rest : List Char) : List Char :=
  let w := rest.takeWhile isWordChar
  match rest.drop w.length with
  | c :: r2 => if c = '\n' then r2 else rest
  | [] => rest

/-- Step 1: ``re.sub(r"```(?:\w*\n)?(.*?)```", r"\1", s, flags=re.S)`` —
replace each fenced block by its (lazily matched, multiline) inner
content; an unmatched opening fence stays literal. -/
def stripFencesAux : Nat → List Char → List Char
  | 0, _ => []
  | _ + 1, [] => []
  | fuel + 1, c :: cs =>
    if c = btick then
      match cs with
      | c2 :: c3 :: rest =>
        if c2 = btick ∧ c3 = btick then
          match fenceSplit (stripLangTag rest) with
          | some (inner, after) => inner ++ stripFencesAux fuel after
          | none => c :: stripFencesAux fuel cs
        else c :: stripFencesAux fuel cs
      | _ => c :: stripFencesAux fuel cs
    else c :: stripFencesAux fuel cs

def stripFences (l : List Char) : List Char := stripFencesAux l.length l

/-- Step 2: ``re.sub(r"`([^`]*)`", r"\1", s)`` — unwrap inline code. -/
def stripInlineCodeAux : Nat → List Char → List Char
  | 0, _ => []
  | _ + 1, [] => []
  | fuel + 1, c :: cs =>
    if c = btick then
      match splitAtChar btick cs with
      | some (inner, after) => inner ++ stripInlineCodeAux fuel after
      | none => c :: stripInlineCodeAux fuel cs
    else c :: stripInlineCodeAux fuel cs

def stripInlineCode (l : List Char) : List Char := stripInlineCodeAux l.length l

/-- Lazy search for the closing delimiter of an emphasis span: the capture
`(.*?)` may not cross a newline (no DOTALL on these patterns). -/
def findEmphClose (d : List Char) : List Char → Option (List Char × List Char)
  | [] => none
  | c :: cs =>
    if List.isPrefixOf d (c :: cs) then some ([], (c :: cs).drop d.length)
    else if c = '\n' then none
    else (findEmphClose d cs).map (fun p => (c :: p.1, p.2))

/-- Steps 3-6: `re.sub(r"\*\*(.*?)\*\*", ...)` and the `*`, `__`, `_`
variants — unwrap each non-greedy emphasis span delimited by `d`. -/
def stripEmphAux (d : List Char) : Nat → List Char → List Char
  | 0, _ => []
  | _ + 1, [] => []
  | fuel + 1, c :: cs =>
    if List.isPrefixOf d (c :: cs) then
      match findEmphClose d ((c :: cs).drop d.length) with
      | some (inner, after) => inner ++ stripEmphAux d fuel after
      | none => c :: stripEmphAux d fuel cs
    else c :: stripEmphAux d fuel cs

def stripEmph (d : List Char) (l : List Char) : List Char := stripEmphAux d l.length l

/-- Step 7 (in code order): ``re.sub(r"^#+\s*", "", s, flags=re.M)`` —
at each line start, drop the hash run and the following (greedy, possibly
newline-crossing) whitespace.  The flag tracks whether the current
position sits at a line start of the original string. -/
def stripHeadingsAux : Nat → Bool → List Char → List Char
  | 0, _, _ => []
  | _ + 1, _, [] => []
  | fuel + 1, atStart, c :: cs =>
    if atStart ∧ c = '#' then
      let hashes := (c :: cs).takeWhile (fun x => x = '#')
      let rest1 := (c :: cs).drop hashes.length
      let ws := rest1.takeWhile isWs
      let rest2 := rest1.drop ws.length
      let nextStart : Bool :=
        match ws.getLast? with
        | some x => x = '\n'
        | none => false
      stripHeadingsAux fuel nextStart rest2
    else c :: stripHeadingsAux fuel (c = '\n') cs

def stripHeadings (l : List Char) : List Char := stripHeadingsAux l.length true l

/-- Step 8: ``re.sub(r"\[([^\]]+)\]\(([^)]+)\)", r"\1 (\2)", s)`` —
rewrite `[label](url)` to `label (url)`. -/
def stripLinksAux : Nat → List Char → List Char
  | 0, _ => []
  | _ + 1, [] => []
  | fuel + 1, c :: cs =>
    if c = '[' then
      match splitAtChar ']' cs with
      | some (label, rest1) =>
        if label ≠ [] then
          match rest1 with
          | c2 :: rest2 =>
            if c2 = '(' then
              match splitAtChar ')' rest2 with
              | some (url, rest3) =>
                if url ≠ [] then
                  label ++ ' ' :: '(' :: (url ++ ')' :: stripLinksAux fuel rest3)
                else c :: stripLinksAux fuel cs
              | none => c :: stripLinksAux fuel cs
            else c :: stripLinksAux fuel cs
          | [] => c :: stripLinksAux fuel cs
        else c :: stripLinksAux fuel cs
      | none => c :: stripLinksAux fuel cs
    else c :: stripLinksAux fuel cs

def stripLinks (l : List Char) : List Char := stripLinksAux l.length l

/-- Step 9: ``re.sub(r"^>\s?", "", s, flags=re.M)`` — drop a blockquote
marker (plus at most one whitespace character) at each line start. -/
def stripQuotesAux : Nat → Bool → List Char → List Char
  | 0, _, _ => []
  | _ + 1, _, [] => []
  | fuel + 1, atStart, c :: cs =>
    if atStart ∧ c = '>' then
      match cs with
      | w :: rest =>
        if isWs w then stripQuotesAux fuel (w = '\n') rest
        else stripQuotesAux fuel false cs
      | [] => []
    else c :: stripQuotesAux fuel (c = '\n') cs

def stripQuotes (l : List Char) : List Char := stripQuotesAux l.length true l

/-- Length of the longest prefix of `run` ending at its last newline. -/
def lastNlLen (run : List Char) : Nat :=
  run.length - (run.reverse.takeWhile (fun c => c ≠ '\n')).length

/-- Length of the match of ``\n\s*\n\s*\n+`` at the current position, or 0:
the pattern matches exactly when the maximal whitespace run starting at a
newline contains at least three newlines, and the (leftmost, greedy) match
extends through that run's last newline. -/
def matchLen : List Char → Nat
  | [] => 0
  | c :: cs =>
    if c = '\n' then
      let run := (c :: cs).takeWhile isWs
      if 3 ≤ run.count '\n' then lastNlLen run else 0
    else 0

/-- Step 10: ``re.sub(r"\n\s*\n\s*\n+", "\n\n", s)`` — collapse every
matched whitespace run to exactly two newlines. -/
def collapseAux : Nat → List Char → List Char
  | 0, _ => []
  | _ + 1, [] => []
  | fuel + 1, c :: cs =>
    let m := matchLen (c :: cs)
    if 3 ≤ m then '\n' :: '\n' :: collapseAux fuel (cs.drop (m - 1))
    else c :: collapseAux fuel cs

def collapseBlanks (l : List Char) : List Char := collapseAux l.length l

/-- The full substitution pipeline of `clean_markdown`, in source order:
fences, inline code, `**`, `*`, `__`, `_`, headings, links, blockquotes,
blank-line collapsing, and a final strip. -/
def pipeline (l : List Char) : List Char :=
  trimChars (collapseBlanks (stripQuotes (stripLinks (stripHeadings
    (stripEmph ['_'] (stripEmph ['_', '_'] (stripEmph ['*'] (stripEmph ['*', '*']
      (stripInlineCode (stripFences l))))))))))

/-- Embedding of `clean_markdown` (lines 13-39): empty/absent input maps
to the empty string, anything else through the pipeline. -/
def clean_markdown (md : String) : String :=
  if md = "" then "" else String.mk (pipeline md.data)

/-! ### Unfolding and fuel lemmas for the blank-line step -/

theorem collapseAux_nil (fuel : Nat) : collapseAux fuel [] = [] := by
  cases fuel <;> rfl

theorem collapseAux_succ (fuel : Nat) (c : Char) (cs : List Char) :
    collapseAux (fuel + 1) (c :: cs) =
      if 3 ≤ matchLen (c :: cs) then
        '\n' :: '\n' :: collapseAux fuel (cs.drop (matchLen (c :: cs) - 1))
      else c :: collapseAux fuel cs := rfl

theorem collapseAux_fuel : ∀ (f g : Nat) (cs : List Char),
    cs.length ≤ f → cs.length ≤ g → collapseAux f cs = collapseAux g cs := by
  intro f
  induction f with
  | zero =>
    intro g cs hf _
    have : cs = [] := List.length_eq_zero.mp (Nat.le_zero.mp hf)
    subst this
    rw [collapseAux_nil, collapseAux_nil]
  | succ f ih =>
    intro g cs hf hg
    cases cs with
    | nil => rw [collapseAux_nil, collapseAux_nil]
    | cons c cs' =>
      cases g with
      | zero => simp at hg
      | succ g' =>
        rw [collapseAux_succ, collapseAux_succ]
        have hf' : cs'.length ≤ f := by simpa using hf
        have hg' : cs'.length ≤ g' := by simpa using hg
        by_cases hm : 3 ≤ matchLen (c :: cs')
        · rw [if_pos hm, if_pos hm]
          have hd : (cs'.drop (matchLen (c :: cs') - 1)).length ≤ cs'.length := by
            rw [List.length_drop]
            exact Nat.sub_le _ _
          rw [ih g' _ (le_trans hd hf') (le_trans hd hg')]
        · rw [if_neg hm, if_neg hm]
          rw [ih g' cs' hf' hg']

theorem collapseBlanks_cons (c : Char) (cs : List Char) :
    collapseBlanks (c :: cs) =
      if 3 ≤ matchLen (c :: cs) then
        '\n' :: '\n' :: collapseBlanks (cs.drop (matchLen (c :: cs) - 1))
      else c :: collapseBlanks cs := by
  show collapseAux (c :: cs).length (c :: cs) = _
  rw [List.length_cons, collapseAux_succ]
  by_cases hm : 3 ≤ matchLen (c :: cs)
  · rw [if_pos hm, if_pos hm]
    have hd : (cs.drop (matchLen (c :: cs) - 1)).length ≤ cs.length := by
      rw [List.length_drop]
      exact Nat.sub_le _ _
    rw [collapseAux_fuel cs.length (cs.drop (matchLen (c :: cs) - 1)).length _ hd le_rfl]
    rfl
  · rw [if_neg hm, if_neg hm]
    rfl

theorem matchLen_cons_ne (c : Char) (cs : List Char) (h : ¬ c = '\n') :
    matchLen (c :: cs) = 0 := by
  simp [matchLen, h]

theorem collapseBlanks_append_text (t : List Char) (h : ∀ c ∈ t, c ≠ '\n')
    (cs : List Char) : collapseBlanks (t ++ cs) = t ++ collapseBlanks cs := by
  induction t with
  | nil => simp
  | cons c t' ih =>
    have hc : ¬ c = '\n' := h c (List.mem_cons_self c t')
    rw [List.cons_append, collapseBlanks_cons, matchLen_cons_ne _ _ hc]
    rw [if_neg (by decide)]
    rw [ih (fun x hx => h x (List.mem_cons_of_mem c hx))]
    rfl

theorem takeWhile_replicate_nl_append (k : Nat) (rest : List Char) :
    List.takeWhile isWs (List.replicate k '\n' ++ rest) =
      List.replicate k '\n' ++ List.takeWhile isWs rest := by
  induction k with
  | zero => simp
  | succ k ih =>
    rw [List.replicate_succ, List.cons_append, List.takeWhile_cons_of_pos (by decide),
      ih]
    simp

theorem takeWhile_append_of_exists_not {p : Char → Bool} (xs ys : List Char)
    (h : ∃ x ∈ xs, p x = false) :
    List.takeWhile p (xs ++ ys) = List.takeWhile p xs := by
  induction xs with
  | nil => simp at h
  | cons x xs' ih =>
    by_cases hx : p x
    · rw [List.cons_append, List.takeWhile_cons_of_pos hx,
        List.takeWhile_cons_of_pos hx]
      have h' : ∃ y ∈ xs', p y = false := by
        obtain ⟨y, hy, hpy⟩ := h
        rcases List.mem_cons.mp hy with rfl | hy'
        · rw [hx] at hpy; cases hpy
        · exact ⟨y, hy', hpy⟩
      rw [ih h']
    · rw [List.cons_append, List.takeWhile_cons_of_neg hx,
        List.takeWhile_cons_of_neg hx]

theorem takeWhile_all_append_cons_neg {p : Char → Bool} (xs : List Char)
    (y : Char) (ys : List Char) (hall : ∀ x ∈ xs, p x = true)
    (hy : p y = false) : List.takeWhile p (xs ++ y :: ys) = xs := by
  have hy' : ¬ p y = true := by simp [hy]
  induction xs with
  | nil =>
    rw [List.nil_append]
    exact List.takeWhile_cons_of_neg hy'
  | cons x xs' ih =>
    rw [List.cons_append,
      List.takeWhile_cons_of_pos (hall x (List.mem_cons_self x xs')),
      ih (fun z hz => hall z (List.mem_cons_of_mem x hz))]

theorem matchLen_run (k : Nat) (rest : List Char) (hk : 1 ≤ k)
    (h : ∀ c ∈ List.takeWhile isWs rest, c ≠ '\n') :
    matchLen (List.replicate k '\n' ++ rest) = if 3 ≤ k then k else 0 := by
  obtain ⟨k', rfl⟩ : ∃ k', k = k' + 1 := ⟨k - 1, (Nat.succ_pred_eq_of_pos hk).symm⟩
  rw [List.replicate_succ, List.cons_append]
  have hrun : List.takeWhile isWs ('\n' :: (List.replicate k' '\n' ++ rest)) =
      List.replicate (k' + 1) '\n' ++ List.takeWhile isWs rest := by
    rw [List.takeWhile_cons_of_pos (by decide), takeWhile_replicate_nl_append,
      List.replicate_succ, List.cons_append]
  have hrepl : ∀ n : Nat, (List.replicate n '\n').count '\n' = n := by
    intro n
    induction n with
    | zero => rfl
    | succ n ih => simp [List.replicate_succ, ih]
  have hcount2 : (List.replicate (k' + 1) '\n' ++ List.takeWhile isWs rest).count '\n' =
      k' + 1 := by
    rw [List.count_append, hrepl]
    have : (List.takeWhile isWs rest).count '\n' = 0 :=
      List.count_eq_zero.mpr (fun hmem => (h '\n' hmem) rfl)
    omega
  have hlast : lastNlLen (List.replicate (k' + 1) '\n' ++ List.takeWhile isWs rest) =
      k' + 1 := by
    unfold lastNlLen
    rw [List.reverse_append, List.reverse_replicate]
    have : List.takeWhile (fun c => decide (c ≠ '\n'))
        ((List.takeWhile isWs rest).reverse ++ List.replicate (k' + 1) '\n') =
        (List.takeWhile isWs rest).reverse := by
      rw [List.replicate_succ, takeWhile_all_append_cons_neg]
      · intro z hz
        have : z ∈ List.takeWhile isWs rest := List.mem_reverse.mp hz
        simpa using h z this
      · simp
    rw [this]
    simp [List.length_append, List.length_replicate]
  have key : matchLen ('\n' :: (List.replicate k' '\n' ++ rest)) =
      if 3 ≤ (List.takeWhile isWs ('\n' :: (List.replicate k' '\n' ++ rest))).count '\n'
      then lastNlLen (List.takeWhile isWs ('\n' :: (List.replicate k' '\n' ++ rest)))
      else 0 := rfl
  show matchLen ('\n' :: (List.replicate k' '\n' ++ rest)) = _
  rw [key, hrun, hcount2, hlast]

theorem collapseBlanks_run (k : Nat) (rest : List Char)
    (h : ∀ c ∈ List.takeWhile isWs rest, c ≠ '\n') :
    collapseBlanks (List.replicate k '\n' ++ rest) =
      List.replicate (if 3 ≤ k then 2 else k) '\n' ++ collapseBlanks rest := by
  match k with
  | 0 => simp
  | 1 =>
    have hm : matchLen (List.replicate 1 '\n' ++ rest) = 0 := by
      rw [matchLen_run 1 rest (by decide) h]
      decide
    rw [show (List.replicate 1 '\n' ++ rest) = '\n' :: rest by simp] at hm ⊢
    rw [collapseBlanks_cons, hm, if_neg (by decide)]
    rfl
  | 2 =>
    have hm2 : matchLen (List.replicate 2 '\n' ++ rest) = 0 := by
      rw [matchLen_run 2 rest (by decide) h]
      decide
    have hm1 : matchLen (List.replicate 1 '\n' ++ rest) = 0 := by
      rw [matchLen_run 1 rest (by decide) h]
      decide
    rw [show (List.replicate 2 '\n' ++ rest) = '\n' :: ('\n' :: rest) by simp
      [List.replicate_succ]] at hm2 ⊢
    rw [show (List.replicate 1 '\n' ++ rest) = '\n' :: rest by simp] at hm1
    rw [collapseBlanks_cons, hm2, if_neg (by decide), collapseBlanks_cons, hm1,
      if_neg (by decide)]
    rfl
  | n + 3 =>
    have hm : matchLen (List.replicate (n + 3) '\n' ++ rest) = n + 3 := by
      rw [matchLen_run (n + 3) rest (by omega) h, if_pos (by omega)]
    have hsplit : List.replicate (n + 3) '\n' ++ rest =
        '\n' :: (List.replicate (n + 2) '\n' ++ rest) := by
      rw [List.replicate_succ, List.cons_append]
    rw [hsplit] at hm ⊢
    rw [collapseBlanks_cons, hm, if_pos (by omega)]
    have hdrop : (List.replicate (n + 2) '\n' ++ rest).drop (n + 3 - 1) = rest := by
      have : n + 3 - 1 = (List.replicate (n + 2) '\n').length := by simp
      rw [this, List.drop_left]
    rw [hdrop, if_pos (by omega)]
    rfl

/-! ### Claim C6 -/

/-- A run-decomposed input for the blank-line step: alternating text
segments and newline runs. -/
def renderChunks : List (List Char × Nat) → List Char
  | [] => []
  | (t, k) :: rest => t ++ List.replicate k '\n' ++ renderChunks rest

/-- What actually happens to a run of `k` consecutive newlines. -/
def collapseRun (k : Nat) : Nat := if 3 ≤ k then 2 else k

/-- A well-formed text segment: newline-free and containing at least one
non-whitespace character (so adjacent runs do not merge through it). -/
def goodChunk (p : List Char × Nat) : Prop :=
  (∀ c ∈ p.1, c ≠ '\n') ∧ ∃ c ∈ p.1, isWs c = false

instance (p : List Char × Nat) : Decidable (goodChunk p) := by
  unfold goodChunk
  infer_instance

theorem renderChunks_takeWhile_no_nl (l : List (List Char × Nat))
    (hl : ∀ p ∈ l, goodChunk p) :
    ∀ c ∈ List.takeWhile isWs (renderChunks l), c ≠ '\n' := by
  cases l with
  | nil => intro c hc; simp [renderChunks] at hc
  | cons p rest =>
    obtain ⟨t, k⟩ := p
    have hg := hl (t, k) (List.mem_cons_self _ _)
    intro c hc
    rw [show renderChunks ((t, k) :: rest) =
      t ++ (List.replicate k '\n' ++ renderChunks rest) by simp [renderChunks]] at hc
    rw [takeWhile_append_of_exists_not t _ (by
      obtain ⟨x, hx, hpx⟩ := hg.2
      exact ⟨x, hx, hpx⟩)] at hc
    exact hg.1 c ((List.takeWhile_prefix isWs).sublist.subset hc)

/-- Counterexample to claim C6 as stated: the input `"a\n\n\nb"` contains a
run of exactly two consecutive blank lines — fewer than three — yet the
blank-line step collapses it to a single blank line instead of leaving it
uncollapsed (the regex fires on any three newlines, i.e. two blank
lines). -/
theorem collapseBlanks_two_blank_lines :
    collapseBlanks ("a\n\n\nb".data) = "a\n\nb".data ∧
      "a\n\nb".data ≠ "a\n\n\nb".data ∧
      clean_markdown "a\n\n\nb" = "a\n\nb" := by
  refine ⟨rfl, by decide, rfl⟩

/-- Claim C6 (amended): on every input decomposable into newline-free text
segments (each containing a non-whitespace character) separated by newline
runs, the blank-line step collapses each run of three or more consecutive
newlines — i.e. two or more consecutive blank lines — down to exactly one
blank line (two newlines), while runs of one or two newlines are left
unchanged; in particular `"## Heading\n\n\n\nNext"` normalizes to
`"Heading\n\nNext"`. -/
theorem collapseBlanks_blank_runs (l : List (List Char × Nat))
    (hl : ∀ p ∈ l, goodChunk p) :
    collapseBlanks (renderChunks l) =
      renderChunks (l.map (fun p => (p.1, collapseRun p.2))) ∧
      clean_markdown "## Heading\n\n\n\nNext" = "Heading\n\nNext" := by
  refine ⟨?_, rfl⟩
  induction l with
  | nil => rfl
  | cons p rest ih =>
    obtain ⟨t, k⟩ := p
    have hg := hl (t, k) (List.mem_cons_self _ _)
    have hrest : ∀ p ∈ rest, goodChunk p :=
      fun q hq => hl q (List.mem_cons_of_mem _ hq)
    rw [show renderChunks ((t, k) :: rest) =
      t ++ (List.replicate k '\n' ++ renderChunks rest) by simp [renderChunks]]
    rw [collapseBlanks_append_text t hg.1]
    rw [collapseBlanks_run k (renderChunks rest)
      (renderChunks_takeWhile_no_nl rest hrest)]
    rw [ih hrest]
    rw [show (((t, k) :: rest).map (fun p => (p.1, collapseRun p.2))) =
      (t, collapseRun k) :: rest.map (fun p => (p.1, collapseRun p.2)) by simp]
    rw [show renderChunks ((t, collapseRun k) ::
        rest.map (fun p => (p.1, collapseRun p.2))) =
      t ++ (List.replicate (collapseRun k) '\n' ++
        renderChunks (rest.map (fun p => (p.1, collapseRun p.2)))) by
      simp [renderChunks]]
    rfl

/-- Witness for the amended C6 at the two-chunk input `"a" ++ "\n\n\n" ++ "b"`:
the three-newline run collapses to two newlines. -/
theorem collapseBlanks_blank_runs_witness :
    collapseBlanks (renderChunks [("a".data, 3), ("b".data, 0)]) =
      renderChunks (List.map (fun p => (p.1, collapseRun p.2))
        [("a".data, 3), ("b".data, 0)]) ∧
      clean_markdown "## Heading\n\n\n\nNext" = "Heading\n\nNext" :=
  collapseBlanks_blank_runs [("a".data, 3), ("b".data, 0)] (by decide)

/-! ### Claim C7 -/

/-- Claim C7: `clean_markdown` returns the empty string on empty input and
reproduces the spec's round-trip examples exactly. -/
theorem clean_markdown_examples :
    clean_markdown "" = "" ∧
      clean_markdown "```sql\nSELECT 1\n```" = "SELECT 1" ∧
      clean_markdown "**bold** and *italic*" = "bold and italic" ∧
      clean_markdown "[click](http://x)" = "click (http://x)" := by
  refine ⟨rfl, rfl, rfl, rfl⟩

end Chatbot
